import Mathlib

/-!
Verification of paasta_tools/frameworks/task_store.py.

The Python module defines an immutable value type MesosTaskParameters (whose
state is its `__dict__`, a string-keyed mapping), a TaskStore base class with
shared read-merge-write logic, a DictTaskStore (in-memory) backend and a
ZKTaskStore (ZooKeeper) backend.

Modelling choices:
- A Python object's `__dict__` is modelled as an association list
  `PyDict := List (String × Json)` with Python dict semantics: `dictGet`
  returns the value of a key (keys are unique in every dict the code builds),
  `dictSet` replaces in place or appends, `dictUpdate` is `dict.update`.
- JSON values are the inductive `Json`. A byte payload is modelled by its
  parse result: `Payload.json j` stands for bytes that `json.loads` parses to
  `j`, and `Payload.notJson raw` for bytes on which `json.loads` raises
  `json.decoder.JSONDecodeError`. `json.dumps` of a dict of `Json` values is
  `Payload.json (Json.obj ...)`.
- Python exceptions are the `PyError` enumeration; a fallible call returns
  `Except PyError`. `PyError.jsonDecodeError` is `json.decoder.JSONDecodeError`
  (the spec's MalformedPayloadError) and `PyError.typeError` is the `TypeError`
  raised by `cls(**d)` on an unexpected keyword argument or a non-mapping
  (the spec's SchemaMismatchError).
- `merge` mutates the receiver (`new_dict = self.__dict__` aliases, then
  `new_dict.update(kwargs)` mutates it), so it is modelled as returning the
  pair (constructor result, receiver after the call).
- The ZooKeeper connection, chrooted at the store's namespace, is modelled as
  `ZKState`: a mapping from node path (task-relative, such as "/taskid") to
  stored payload. `zkGet`/`zkSet`/`zkCreate` are the kazoo primitives with
  their NoNodeError behaviour.
-/

/-- A JSON value, the result of `json.loads` on a well-formed payload. An
`obj` carries its key/value pairs; payloads produced by `serialize` never
contain duplicate keys. -/
inductive Json where
  | null : Json
  | bool (b : Bool) : Json
  | num (n : Int) : Json
  | str (s : String) : Json
  | arr (elems : List Json) : Json
  | obj (kvs : List (String × Json)) : Json

mutual

def Json.decEq : (a b : Json) → Decidable (a = b)
  | Json.null, Json.null => isTrue rfl
  | Json.bool x, Json.bool y =>
    match (inferInstance : DecidableEq Bool) x y with
    | isTrue h => isTrue (by rw [h])
    | isFalse h => isFalse (fun hh => h (Json.bool.inj hh))
  | Json.num x, Json.num y =>
    match (inferInstance : DecidableEq Int) x y with
    | isTrue h => isTrue (by rw [h])
    | isFalse h => isFalse (fun hh => h (Json.num.inj hh))
  | Json.str x, Json.str y =>
    match (inferInstance : DecidableEq String) x y with
    | isTrue h => isTrue (by rw [h])
    | isFalse h => isFalse (fun hh => h (Json.str.inj hh))
  | Json.arr xs, Json.arr ys =>
    match Json.decEqList xs ys with
    | isTrue h => isTrue (by rw [h])
    | isFalse h => isFalse (fun hh => h (Json.arr.inj hh))
  | Json.obj xs, Json.obj ys =>
    match Json.decEqKvs xs ys with
    | isTrue h => isTrue (by rw [h])
    | isFalse h => isFalse (fun hh => h (Json.obj.inj hh))
  | Json.null, Json.bool _ => isFalse (fun h => Json.noConfusion h)
  | Json.null, Json.num _ => isFalse (fun h => Json.noConfusion h)
  | Json.null, Json.str _ => isFalse (fun h => Json.noConfusion h)
  | Json.null, Json.arr _ => isFalse (fun h => Json.noConfusion h)
  | Json.null, Json.obj _ => isFalse (fun h => Json.noConfusion h)
  | Json.bool _, Json.null => isFalse (fun h => Json.noConfusion h)
  | Json.bool _, Json.num _ => isFalse (fun h => Json.noConfusion h)
  | Json.bool _, Json.str _ => isFalse (fun h => Json.noConfusion h)
  | Json.bool _, Json.arr _ => isFalse (fun h => Json.noConfusion h)
  | Json.bool _, Json.obj _ => isFalse (fun h => Json.noConfusion h)
  | Json.num _, Json.null => isFalse (fun h => Json.noConfusion h)
  | Json.num _, Json.bool _ => isFalse (fun h => Json.noConfusion h)
  | Json.num _, Json.str _ => isFalse (fun h => Json.noConfusion h)
  | Json.num _, Json.arr _ => isFalse (fun h => Json.noConfusion h)
  | Json.num _, Json.obj _ => isFalse (fun h => Json.noConfusion h)
  | Json.str _, Json.null => isFalse (fun h => Json.noConfusion h)
  | Json.str _, Json.bool _ => isFalse (fun h => Json.noConfusion h)
  | Json.str _, Json.num _ => isFalse (fun h => Json.noConfusion h)
  | Json.str _, Json.arr _ => isFalse (fun h => Json.noConfusion h)
  | Json.str _, Json.obj _ => isFalse (fun h => Json.noConfusion h)
  | Json.arr _, Json.null => isFalse (fun h => Json.noConfusion h)
  | Json.arr _, Json.bool _ => isFalse (fun h => Json.noConfusion h)
  | Json.arr _, Json.num _ => isFalse (fun h => Json.noConfusion h)
  | Json.arr _, Json.str _ => isFalse (fun h => Json.noConfusion h)
  | Json.arr _, Json.obj _ => isFalse (fun h => Json.noConfusion h)
  | Json.obj _, Json.null => isFalse (fun h => Json.noConfusion h)
  | Json.obj _, Json.bool _ => isFalse (fun h => Json.noConfusion h)
  | Json.obj _, Json.num _ => isFalse (fun h => Json.noConfusion h)
  | Json.obj _, Json.str _ => isFalse (fun h => Json.noConfusion h)
  | Json.obj _, Json.arr _ => isFalse (fun h => Json.noConfusion h)

def Json.decEqList : (a b : List Json) → Decidable (a = b)
  | [], [] => isTrue rfl
  | [], _ :: _ => isFalse (fun h => List.noConfusion h)
  | _ :: _, [] => isFalse (fun h => List.noConfusion h)
  | x :: xs, y :: ys =>
    match Json.decEq x y with
    | isFalse h => isFalse (fun hh => h (List.cons.inj hh).1)
    | isTrue h1 =>
      match Json.decEqList xs ys with
      | isTrue h2 => isTrue (by rw [h1, h2])
      | isFalse h => isFalse (fun hh => h (List.cons.inj hh).2)

def Json.decEqKvs : (a b : List (String × Json)) → Decidable (a = b)
  | [], [] => isTrue rfl
  | [], _ :: _ => isFalse (fun h => List.noConfusion h)
  | _ :: _, [] => isFalse (fun h => List.noConfusion h)
  | (k1, v1) :: xs, (k2, v2) :: ys =>
    match (inferInstance : DecidableEq String) k1 k2 with
    | isFalse h => isFalse (fun hh => h (congrArg (fun l => ((l.headD (k1, v1)).1)) hh))
    | isTrue hk =>
      match Json.decEq v1 v2 with
      | isFalse h => isFalse (fun hh => h (congrArg (fun l => ((l.headD (k1, v1)).2)) hh))
      | isTrue hv =>
        match Json.decEqKvs xs ys with
        | isTrue ht => isTrue (by rw [hk, hv, ht])
        | isFalse h => isFalse (fun hh => h (List.cons.inj hh).2)

end

instance : DecidableEq Json := Json.decEq

deriving instance DecidableEq for Except

/-- A Python `__dict__` / keyword-argument mapping: string keys to values. -/
abbrev PyDict : Type := List (String × Json)

/-- Python exceptions raised by the code under verification. -/
inductive PyError where
  | typeError : PyError
  | jsonDecodeError : PyError
  | noNodeError : PyError
  | nodeExistsError : PyError
  | mesosTaskParametersIsImmutableError : PyError
deriving DecidableEq

/-- A byte payload, modelled by its `json.loads` outcome: `json j` is bytes
parsing to `j`; `notJson raw` is bytes (kept verbatim) that fail to parse. -/
inductive Payload where
  | json (j : Json) : Payload
  | notJson (raw : String) : Payload
deriving DecidableEq

/-- Python dict lookup `d.get(k)` (keys are unique in every dict built here,
so first occurrence is the occurrence). -/
def dictGet : PyDict → String → Option Json
  | [], _ => none
  | (k', v') :: rest, k => if k' = k then some v' else dictGet rest k

/-- Python dict item assignment `d[k] = v`: replace in place if the key is
present, otherwise append (insertion order preserved, as CPython does). -/
def dictSet : PyDict → String → Json → PyDict
  | [], k, v => [(k, v)]
  | (k', v') :: rest, k, v =>
    if k' = k then (k, v) :: rest else (k', v') :: dictSet rest k v

/-- Python `d.update(kwargs)`: assign every key of `kwargs` in order. -/
def dictUpdate (d : PyDict) (kwargs : PyDict) : PyDict :=
  kwargs.foldl (fun acc kv => dictSet acc kv.1 kv.2) d

/-- `json.loads`: parse the payload or raise JSONDecodeError. -/
def jsonLoads : Payload → Except PyError Json
  | Payload.json j => Except.ok j
  | Payload.notJson _ => Except.error PyError.jsonDecodeError

/-- The six keyword parameters of `MesosTaskParameters.__init__`, in the
declaration order in which `__init__` populates `self.__dict__`. -/
def taskParamFields : List String :=
  ["health", "mesos_task_state", "is_draining", "is_healthy", "offer", "resources"]

/-- A MesosTaskParameters object, i.e. its `__dict__`. Instances produced by
`__init__` always hold exactly the six fields in declaration order, so
structural equality of `dict` coincides with Python dict equality (`__eq__`
compares `self.__dict__ == other.__dict__`). -/
structure MesosTaskParameters where
  dict : PyDict
deriving DecidableEq

/-- `MesosTaskParameters(**kwargs)`: raises TypeError on any keyword outside
the six parameters; otherwise `__init__` stores each field (defaulting to
None) into `self.__dict__` in declaration order. -/
def MesosTaskParameters.init (kwargs : PyDict) : Except PyError MesosTaskParameters :=
  if kwargs.all (fun kv => taskParamFields.contains kv.1) then
    Except.ok ⟨taskParamFields.map (fun f => (f, (dictGet kwargs f).getD Json.null))⟩
  else
    Except.error PyError.typeError

/-- `merge(**kwargs)` from the source: `new_dict = self.__dict__` (an alias of
the receiver's dict), `new_dict.update(kwargs)` (mutating the receiver), then
`MesosTaskParameters(**new_dict)`. Returns (constructor result, the receiver
as left after the call). -/
def MesosTaskParameters.merge (self : MesosTaskParameters) (kwargs : PyDict) :
    Except PyError MesosTaskParameters × MesosTaskParameters :=
  let new_dict := dictUpdate self.dict kwargs
  (MesosTaskParameters.init new_dict, ⟨new_dict⟩)

/-- `serialize()`: `json.dumps(self.__dict__).encode('utf-8')`. -/
def MesosTaskParameters.serialize (self : MesosTaskParameters) : Payload :=
  Payload.json (Json.obj self.dict)

/-- `deserialize(serialized_params)`: `cls(**json.loads(serialized_params))`.
`json.loads` raises JSONDecodeError on malformed bytes; `cls(**x)` raises
TypeError when `x` is not a mapping or carries an unexpected keyword. -/
def MesosTaskParameters.deserialize (serialized_params : Payload) :
    Except PyError MesosTaskParameters := do
  let j ← jsonLoads serialized_params
  match j with
  | Json.obj kvs => MesosTaskParameters.init kvs
  | _ => Except.error PyError.typeError

/-- `__setattr__` raises MesosTaskParametersIsImmutableError before touching
any state; the pair is (raised error, the receiver afterwards). -/
def MesosTaskParameters.setAttr (self : MesosTaskParameters) (_name : String)
    (_value : Json) : Except PyError Unit × MesosTaskParameters :=
  (Except.error PyError.mesosTaskParametersIsImmutableError, self)

/-- `__delattr__` raises MesosTaskParametersIsImmutableError before touching
any state. -/
def MesosTaskParameters.delAttr (self : MesosTaskParameters) (_name : String) :
    Except PyError Unit × MesosTaskParameters :=
  (Except.error PyError.mesosTaskParametersIsImmutableError, self)

/-- Association-list lookup for the DictTaskStore task mapping. -/
def assocGet {α : Type} : List (String × α) → String → Option α
  | [], _ => none
  | (k', v') :: rest, k => if k' = k then some v' else assocGet rest k

/-- Association-list assignment for the DictTaskStore mapping / ZK node set. -/
def assocSet {α : Type} : List (String × α) → String → α → List (String × α)
  | [], k, v => [(k, v)]
  | (k', v') :: rest, k, v =>
    if k' = k then (k, v) :: rest else (k', v') :: assocSet rest k v

/-- DictTaskStore: `self.tasks`, a dict task_id -> MesosTaskParameters. -/
structure DictTaskStore where
  tasks : List (String × MesosTaskParameters)
deriving DecidableEq

/-- `DictTaskStore.get_task`: `self.tasks.get(task_id)`. -/
def DictTaskStore.get_task (self : DictTaskStore) (task_id : String) :
    Option MesosTaskParameters :=
  assocGet self.tasks task_id

/-- `DictTaskStore.get_all_tasks`: `dict(self.tasks)` (a shallow copy). -/
def DictTaskStore.get_all_tasks (self : DictTaskStore) :
    List (String × MesosTaskParameters) :=
  self.tasks

/-- `DictTaskStore.overwrite_task`: stores
`MesosTaskParameters.deserialize(params.serialize())` under task_id, so the
returned values are the same format as ZKTaskStore. -/
def DictTaskStore.overwrite_task (self : DictTaskStore) (task_id : String)
    (params : MesosTaskParameters) : Except PyError DictTaskStore := do
  let p ← MesosTaskParameters.deserialize params.serialize
  Except.ok ⟨assocSet self.tasks task_id p⟩

/-- `TaskStore.add_task_if_doesnt_exist` as inherited by DictTaskStore:
if `get_task(task_id) is not None` return, else overwrite with
`MesosTaskParameters(**kwargs)`. -/
def DictTaskStore.add_task_if_doesnt_exist (self : DictTaskStore)
    (task_id : String) (kwargs : PyDict) : Except PyError DictTaskStore :=
  if (self.get_task task_id).isSome then
    Except.ok self
  else do
    let params ← MesosTaskParameters.init kwargs
    self.overwrite_task task_id params

/-- `TaskStore.update_task` as inherited by DictTaskStore: read, merge (or
construct afresh when absent; a MesosTaskParameters instance is always truthy,
so `if existing_task:` tests presence), overwrite, return the merged value.
On the success path the in-place mutation `merge` performs on the stored
object is immediately superseded by `overwrite_task`. -/
def DictTaskStore.update_task (self : DictTaskStore) (task_id : String)
    (kwargs : PyDict) : Except PyError (MesosTaskParameters × DictTaskStore) := do
  let merged_params ←
    match self.get_task task_id with
    | some existing_task => (existing_task.merge kwargs).1
    | none => MesosTaskParameters.init kwargs
  let st ← self.overwrite_task task_id merged_params
  Except.ok (merged_params, st)

/-- The chrooted ZooKeeper connection of one ZKTaskStore: node path
(task-relative, "/<task_id>") to stored bytes. -/
structure ZKState where
  nodes : List (String × Payload)
deriving DecidableEq

/-- kazoo `zk.get(path)`: the node's data, or NoNodeError if absent. -/
def zkGet (st : ZKState) (path : String) : Except PyError Payload :=
  match assocGet st.nodes path with
  | some d => Except.ok d
  | none => Except.error PyError.noNodeError

/-- kazoo `zk.set(path, data)`: overwrite an existing node, NoNodeError if
absent. -/
def zkSet (st : ZKState) (path : String) (d : Payload) : Except PyError ZKState :=
  if (assocGet st.nodes path).isSome then
    Except.ok ⟨assocSet st.nodes path d⟩
  else
    Except.error PyError.noNodeError

/-- kazoo `zk.create(path, data)`: create a fresh node, NodeExistsError if
present. -/
def zkCreate (st : ZKState) (path : String) (d : Payload) : Except PyError ZKState :=
  if (assocGet st.nodes path).isSome then
    Except.error PyError.nodeExistsError
  else
    Except.ok ⟨assocSet st.nodes path d⟩

/-- `zk.get_children('/')` on the chrooted connection: the node names, i.e.
the task-relative paths without their leading slash. -/
def zkGetChildren (st : ZKState) : List String :=
  st.nodes.map (fun kv => String.mk (kv.1.data.dropWhile (fun c => c = '/')))

/-- `ZKTaskStore._zk_path_from_task_id`. -/
def ZKTaskStore.zk_path_from_task_id (task_id : String) : String :=
  "/" ++ task_id

/-- `ZKTaskStore._task_id_from_zk_path`: `zk_path.lstrip('/')`. -/
def ZKTaskStore.task_id_from_zk_path (zk_path : String) : String :=
  String.mk (zk_path.data.dropWhile (fun c => c = '/'))

/-- `ZKTaskStore.get_task`: read `/<task_id>` and deserialize, catching only
NoNodeError and json.decoder.JSONDecodeError (each yields None); every other
exception — in particular the TypeError that `deserialize` raises on a payload
that parses as JSON but does not match the schema — propagates. -/
def ZKTaskStore.get_task (st : ZKState) (task_id : String) :
    Except PyError (Option MesosTaskParameters) :=
  match zkGet st ("/" ++ task_id) with
  | Except.error PyError.noNodeError => Except.ok none
  | Except.error e => Except.error e
  | Except.ok data =>
    match MesosTaskParameters.deserialize data with
    | Except.ok params => Except.ok (some params)
    | Except.error PyError.jsonDecodeError => Except.ok none
    | Except.error e => Except.error e

/-- `ZKTaskStore.get_all_tasks`: for each child of '/', call `get_task` and
keep the non-None results (bogus child nodes whose `get_task` comes back None
are skipped); an exception from `get_task` propagates. -/
def ZKTaskStore.get_all_tasks (st : ZKState) :
    Except PyError (List (String × MesosTaskParameters)) :=
  (zkGetChildren st).foldlM
    (fun all_tasks child_path => do
      let task_id := ZKTaskStore.task_id_from_zk_path child_path
      match ← ZKTaskStore.get_task st task_id with
      | some params => pure (assocSet all_tasks task_id params)
      | none => pure all_tasks)
    []

/-- `ZKTaskStore.overwrite_task`: try `set`, and on NoNodeError fall back to
`create`. -/
def ZKTaskStore.overwrite_task (st : ZKState) (task_id : String)
    (params : MesosTaskParameters) : Except PyError ZKState :=
  match zkSet st (ZKTaskStore.zk_path_from_task_id task_id) params.serialize with
  | Except.ok st' => Except.ok st'
  | Except.error PyError.noNodeError =>
    zkCreate st (ZKTaskStore.zk_path_from_task_id task_id) params.serialize
  | Except.error e => Except.error e

/-- `TaskStore.add_task_if_doesnt_exist` as inherited by ZKTaskStore (an
exception raised by `get_task` propagates). -/
def ZKTaskStore.add_task_if_doesnt_exist (st : ZKState) (task_id : String)
    (kwargs : PyDict) : Except PyError ZKState := do
  match ← ZKTaskStore.get_task st task_id with
  | some _ => Except.ok st
  | none => do
    let params ← MesosTaskParameters.init kwargs
    ZKTaskStore.overwrite_task st task_id params

/-- `TaskStore.update_task` as inherited by ZKTaskStore. -/
def ZKTaskStore.update_task (st : ZKState) (task_id : String) (kwargs : PyDict) :
    Except PyError (MesosTaskParameters × ZKState) := do
  let existing_task ← ZKTaskStore.get_task st task_id
  let merged_params ←
    match existing_task with
    | some x => (x.merge kwargs).1
    | none => MesosTaskParameters.init kwargs
  let st' ← ZKTaskStore.overwrite_task st task_id merged_params
  Except.ok (merged_params, st')

/-- The `__dict__` that `__init__` builds: the six fields in declaration
order. -/
def canonicalDict (v1 v2 v3 v4 v5 v6 : Json) : PyDict :=
  [("health", v1), ("mesos_task_state", v2), ("is_draining", v3),
   ("is_healthy", v4), ("offer", v5), ("resources", v6)]

theorem assocGet_assocSet_self {α : Type} (l : List (String × α)) (k : String) (v : α) :
    assocGet (assocSet l k v) k = some v := by
  induction l with
  | nil => simp [assocSet, assocGet]
  | cons hd tl ih =>
    obtain ⟨k1, v1⟩ := hd
    by_cases h : k1 = k
    · simp [assocSet, assocGet, h]
    · simp [assocSet, assocGet, h, ih]

theorem dictGet_dictSet_self (d : PyDict) (k : String) (v : Json) :
    dictGet (dictSet d k v) k = some v := by
  induction d with
  | nil => simp [dictSet, dictGet]
  | cons hd tl ih =>
    obtain ⟨k1, v1⟩ := hd
    by_cases h : k1 = k
    · simp [dictSet, dictGet, h]
    · simp [dictSet, dictGet, h, ih]

theorem mem_dictSet_self (d : PyDict) (k : String) (v : Json) :
    (k, v) ∈ dictSet d k v := by
  induction d with
  | nil => simp [dictSet]
  | cons hd tl ih =>
    obtain ⟨k1, v1⟩ := hd
    by_cases h : k1 = k
    · simp [dictSet, h]
    · simp only [dictSet, h, if_false]
      exact List.mem_cons_of_mem _ ih

theorem all_false_of_mem {α : Type} {p : α → Bool} {a : α} {l : List α}
    (hmem : a ∈ l) (hp : p a = false) : l.all p = false := by
  cases hall : l.all p with
  | false => rfl
  | true => exact absurd (List.all_eq_true.mp hall a hmem) (by simp [hp])

/-- Constructing from a canonical six-field dict reproduces that dict. -/
theorem init_canonical (v1 v2 v3 v4 v5 v6 : Json) :
    MesosTaskParameters.init (canonicalDict v1 v2 v3 v4 v5 v6) =
      Except.ok ⟨canonicalDict v1 v2 v3 v4 v5 v6⟩ := rfl

/-- Every successfully constructed instance holds the canonical dict. -/
theorem init_ok_eq (kwargs : PyDict) (x : MesosTaskParameters)
    (h : MesosTaskParameters.init kwargs = Except.ok x) :
    x = ⟨canonicalDict ((dictGet kwargs "health").getD Json.null)
      ((dictGet kwargs "mesos_task_state").getD Json.null)
      ((dictGet kwargs "is_draining").getD Json.null)
      ((dictGet kwargs "is_healthy").getD Json.null)
      ((dictGet kwargs "offer").getD Json.null)
      ((dictGet kwargs "resources").getD Json.null)⟩ := by
  unfold MesosTaskParameters.init at h
  split at h
  · cases h
    rfl
  · cases h

/-- serialize/deserialize round-trip for every constructed instance. -/
theorem init_roundtrip (kwargs : PyDict) (x : MesosTaskParameters)
    (h : MesosTaskParameters.init kwargs = Except.ok x) :
    MesosTaskParameters.deserialize x.serialize = Except.ok x := by
  have hx := init_ok_eq kwargs x h
  subst hx
  rfl

/-- Reading a present node dispatches on the deserialization outcome exactly
as the try/except in the source does. -/
theorem ZK_get_task_of_node (st : ZKState) (task_id : String) (p : Payload)
    (h : assocGet st.nodes ("/" ++ task_id) = some p) :
    ZKTaskStore.get_task st task_id =
      match MesosTaskParameters.deserialize p with
      | Except.ok params => Except.ok (some params)
      | Except.error PyError.jsonDecodeError => Except.ok none
      | Except.error e => Except.error e := by
  unfold ZKTaskStore.get_task zkGet
  rw [h]

/-- Reading an absent node yields None via the NoNodeError handler. -/
theorem ZK_get_task_of_absent (st : ZKState) (task_id : String)
    (h : assocGet st.nodes ("/" ++ task_id) = none) :
    ZKTaskStore.get_task st task_id = Except.ok none := by
  unfold ZKTaskStore.get_task zkGet
  rw [h]

/-- The set-then-create fallback always lands the serialized params at the
task node, whether or not the node existed. -/
theorem ZK_overwrite_task_eq (st : ZKState) (task_id : String)
    (params : MesosTaskParameters) :
    ZKTaskStore.overwrite_task st task_id params =
      Except.ok ⟨assocSet st.nodes ("/" ++ task_id) params.serialize⟩ := by
  unfold ZKTaskStore.overwrite_task zkSet zkCreate ZKTaskStore.zk_path_from_task_id
  by_cases h : (assocGet st.nodes ("/" ++ task_id)).isSome
  · simp [h]
  · simp [h]

/-- Claim C3: for every MesosTaskParameters value built from a valid
combination of the six fields (i.e. successfully constructed from keyword
arguments), deserialize(serialize(x)) is structurally equal to x. -/
theorem C3_deserialize_serialize_roundtrip (kwargs : PyDict)
    (x : MesosTaskParameters) (h : MesosTaskParameters.init kwargs = Except.ok x) :
    MesosTaskParameters.deserialize x.serialize = Except.ok x :=
  init_roundtrip kwargs x h

/-- Witness for C3 at construct(health=True). -/
theorem C3_deserialize_serialize_roundtrip_witness :
    MesosTaskParameters.init [("health", Json.bool true)] =
      Except.ok ⟨canonicalDict (Json.bool true) Json.null Json.null Json.null
        Json.null Json.null⟩ ∧
    MesosTaskParameters.deserialize
        (MesosTaskParameters.mk (canonicalDict (Json.bool true) Json.null Json.null
          Json.null Json.null Json.null)).serialize =
      Except.ok ⟨canonicalDict (Json.bool true) Json.null Json.null Json.null
        Json.null Json.null⟩ :=
  ⟨by decide,
   C3_deserialize_serialize_roundtrip [("health", Json.bool true)] _ (by decide)⟩

/-- Claim C6: deserialize raises JSONDecodeError (the spec's
MalformedPayloadError) on every payload that is not valid JSON, and raises
TypeError (the spec's SchemaMismatchError) on every payload that decodes to a
mapping containing a key outside the six defined fields; unknown keys are
never silently accepted. -/
theorem C6_deserialize_error_modes :
    (∀ raw : String,
      MesosTaskParameters.deserialize (Payload.notJson raw) =
        Except.error PyError.jsonDecodeError) ∧
    (∀ (kvs : List (String × Json)) (k : String) (v : Json),
      (k, v) ∈ kvs → taskParamFields.contains k = false →
      MesosTaskParameters.deserialize (Payload.json (Json.obj kvs)) =
        Except.error PyError.typeError) := by
  constructor
  · intro raw
    rfl
  · intro kvs k v hmem hk
    have hall : kvs.all (fun kv => taskParamFields.contains kv.1) = false :=
      all_false_of_mem hmem hk
    have hde : MesosTaskParameters.deserialize (Payload.json (Json.obj kvs)) =
        MesosTaskParameters.init kvs := rfl
    rw [hde]
    unfold MesosTaskParameters.init
    simp [hall]
    exact ⟨k, ⟨v, hmem⟩, by simpa using hk⟩

/-- Witness for C6 on a non-JSON payload and on an unknown-key payload. -/
theorem C6_deserialize_error_modes_witness :
    MesosTaskParameters.deserialize (Payload.notJson "garbage") =
      Except.error PyError.jsonDecodeError ∧
    MesosTaskParameters.deserialize (Payload.json (Json.obj [("bogus", Json.num 1)])) =
      Except.error PyError.typeError :=
  ⟨C6_deserialize_error_modes.1 "garbage",
   C6_deserialize_error_modes.2 [("bogus", Json.num 1)] "bogus" (Json.num 1)
     (by decide) (by decide)⟩

/-- Claim C7: every attribute assignment and every attribute deletion on a
constructed MesosTaskParameters raises MesosTaskParametersIsImmutableError,
and the value is unchanged by the attempt. -/
theorem C7_immutable_value (p : MesosTaskParameters) (name : String) (value : Json) :
    p.setAttr name value =
      (Except.error PyError.mesosTaskParametersIsImmutableError, p) ∧
    p.delAttr name =
      (Except.error PyError.mesosTaskParametersIsImmutableError, p) :=
  ⟨rfl, rfl⟩

/-- Claim C8: on both backends, get_task on a task_id that was never written
returns absent rather than raising. -/
theorem C8_get_task_never_written (d : DictTaskStore) (st : ZKState)
    (task_id : String) (hd : assocGet d.tasks task_id = none)
    (hz : assocGet st.nodes ("/" ++ task_id) = none) :
    d.get_task task_id = none ∧
    ZKTaskStore.get_task st task_id = Except.ok none :=
  ⟨hd, ZK_get_task_of_absent st task_id hz⟩

/-- Witness for C8 on empty stores. -/
theorem C8_get_task_never_written_witness :
    DictTaskStore.get_task ⟨[]⟩ "missing" = none ∧
    ZKTaskStore.get_task ⟨[]⟩ "missing" = Except.ok none :=
  C8_get_task_never_written ⟨[]⟩ ⟨[]⟩ "missing" (by decide) (by decide)

/-- Claim C9: overwrite_task on the ZooKeeper backend is an unconditional
upsert: it always succeeds and leaves serialize(params) at the task's node,
whether or not the node existed before. -/
theorem C9_overwrite_task_upsert (st : ZKState) (task_id : String)
    (params : MesosTaskParameters) :
    ZKTaskStore.overwrite_task st task_id params =
      Except.ok ⟨assocSet st.nodes ("/" ++ task_id) params.serialize⟩ ∧
    zkGet ⟨assocSet st.nodes ("/" ++ task_id) params.serialize⟩ ("/" ++ task_id) =
      Except.ok params.serialize := by
  refine ⟨ZK_overwrite_task_eq st task_id params, ?_⟩
  unfold zkGet
  rw [assocGet_assocSet_self]

theorem exceptBind_ok {ε α β : Type} (a : α) (f : α → Except ε β) :
    (Except.ok a >>= f : Except ε β) = f a := rfl

theorem exceptBind_error {ε α β : Type} (e : ε) (f : α → Except ε β) :
    ((Except.error e : Except ε α) >>= f) = Except.error e := rfl

/-- A ZK state holding one node whose payload is valid JSON but violates the
schema (an unknown key): precisely a write from a foreign schema. -/
def stBadSchema : ZKState :=
  ⟨[("/t1", Payload.json (Json.obj [("foo", Json.null)]))]⟩

/-- A constructed value, construct(health=True). -/
def goodParams : MesosTaskParameters :=
  ⟨canonicalDict (Json.bool true) Json.null Json.null Json.null Json.null Json.null⟩

/-- A ZK state with one well-formed node and one node whose bytes are not
JSON at all. -/
def stMixed : ZKState :=
  ⟨[("/t1", goodParams.serialize), ("/t2", Payload.notJson "not-json")]⟩

/-- Counterexample to claim C2: the stored payload at /t1 fails to
deserialize (foreign schema, unknown key "foo"), yet get_task raises
(TypeError) instead of returning absent, and get_all_tasks raises instead of
omitting the entry. -/
theorem C2_counterexample :
    MesosTaskParameters.deserialize (Payload.json (Json.obj [("foo", Json.null)])) =
      Except.error PyError.typeError ∧
    ZKTaskStore.get_task stBadSchema "t1" = Except.error PyError.typeError ∧
    ZKTaskStore.get_task stBadSchema "t1" ≠ Except.ok none ∧
    ZKTaskStore.get_all_tasks stBadSchema = Except.error PyError.typeError := by
  decide

/-- Claim C2 amended: only payloads that fail to parse as JSON are tolerated:
for those, get_task returns absent without raising, and get_all_tasks omits
the entry (shown on a state holding one well-formed and one non-JSON node);
payloads that parse but violate the schema raise instead. -/
theorem C2_amended_corruption_tolerance :
    (∀ (st : ZKState) (task_id raw : String),
      assocGet st.nodes ("/" ++ task_id) = some (Payload.notJson raw) →
      ZKTaskStore.get_task st task_id = Except.ok none) ∧
    ZKTaskStore.get_all_tasks stMixed = Except.ok [("t1", goodParams)] := by
  constructor
  · intro st task_id raw h
    rw [ZK_get_task_of_node st task_id _ h]
    rfl
  · decide

/-- Witness for the amended C2 on the mixed state. -/
theorem C2_amended_corruption_tolerance_witness :
    ZKTaskStore.get_task stMixed "t2" = Except.ok none :=
  C2_amended_corruption_tolerance.1 stMixed "t2" "not-json" (by decide)

/-- overwrite_task on the in-memory backend stores the value itself once the
serialize/deserialize round trip is the identity on it. -/
theorem Dict_overwrite_task_of_init (d : DictTaskStore) (task_id : String)
    (kwargs : PyDict) (p : MesosTaskParameters)
    (h : MesosTaskParameters.init kwargs = Except.ok p) :
    d.overwrite_task task_id p = Except.ok ⟨assocSet d.tasks task_id p⟩ := by
  unfold DictTaskStore.overwrite_task
  rw [init_roundtrip kwargs p h]
  rfl

/-- add_task_if_doesnt_exist on the in-memory backend, absent case. -/
theorem Dict_add_of_absent (d : DictTaskStore) (task_id : String)
    (kwargs : PyDict) (p : MesosTaskParameters)
    (hd : d.get_task task_id = none)
    (h : MesosTaskParameters.init kwargs = Except.ok p) :
    d.add_task_if_doesnt_exist task_id kwargs =
      Except.ok ⟨assocSet d.tasks task_id p⟩ := by
  unfold DictTaskStore.add_task_if_doesnt_exist
  rw [hd]
  simp only [Option.isSome_none, Bool.false_eq_true, if_false, h, exceptBind_ok]
  exact Dict_overwrite_task_of_init d task_id kwargs p h

/-- add_task_if_doesnt_exist on the in-memory backend, present case: no-op. -/
theorem Dict_add_of_present (d : DictTaskStore) (task_id : String)
    (kwargs : PyDict) (p : MesosTaskParameters)
    (hd : d.get_task task_id = some p) :
    d.add_task_if_doesnt_exist task_id kwargs = Except.ok d := by
  unfold DictTaskStore.add_task_if_doesnt_exist
  rw [hd]
  rfl

/-- Reading back a just-written node returns the written value. -/
theorem ZK_get_task_after_write (st : ZKState) (task_id : String)
    (kwargs : PyDict) (p : MesosTaskParameters)
    (h : MesosTaskParameters.init kwargs = Except.ok p) :
    ZKTaskStore.get_task ⟨assocSet st.nodes ("/" ++ task_id) p.serialize⟩ task_id =
      Except.ok (some p) := by
  rw [ZK_get_task_of_node _ task_id p.serialize (assocGet_assocSet_self st.nodes _ _),
    init_roundtrip kwargs p h]

/-- add_task_if_doesnt_exist on the ZooKeeper backend, absent case. -/
theorem ZK_add_of_absent (st : ZKState) (task_id : String) (kwargs : PyDict)
    (p : MesosTaskParameters)
    (hz : ZKTaskStore.get_task st task_id = Except.ok none)
    (h : MesosTaskParameters.init kwargs = Except.ok p) :
    ZKTaskStore.add_task_if_doesnt_exist st task_id kwargs =
      Except.ok ⟨assocSet st.nodes ("/" ++ task_id) p.serialize⟩ := by
  unfold ZKTaskStore.add_task_if_doesnt_exist
  rw [hz]
  show (do
      let params ← MesosTaskParameters.init kwargs
      ZKTaskStore.overwrite_task st task_id params) =
    Except.ok ⟨assocSet st.nodes ("/" ++ task_id) p.serialize⟩
  rw [h]
  show ZKTaskStore.overwrite_task st task_id p =
    Except.ok ⟨assocSet st.nodes ("/" ++ task_id) p.serialize⟩
  exact ZK_overwrite_task_eq st task_id p

/-- add_task_if_doesnt_exist on the ZooKeeper backend, present case: no-op. -/
theorem ZK_add_of_present (st : ZKState) (task_id : String) (kwargs : PyDict)
    (p : MesosTaskParameters)
    (hz : ZKTaskStore.get_task st task_id = Except.ok (some p)) :
    ZKTaskStore.add_task_if_doesnt_exist st task_id kwargs = Except.ok st := by
  unfold ZKTaskStore.add_task_if_doesnt_exist
  rw [hz]
  rfl

/-- Claim C5: add_task_if_doesnt_exist writes construct(fields) only when
get_task reports absence, and is otherwise a no-op: calling it twice with
different field values leaves the store holding the first value. Shown on
both backends. -/
theorem C5_add_task_first_value_wins (d : DictTaskStore) (st : ZKState)
    (task_id : String) (k1 k2 : PyDict) (p1 : MesosTaskParameters)
    (hd : d.get_task task_id = none)
    (hz : ZKTaskStore.get_task st task_id = Except.ok none)
    (h1 : MesosTaskParameters.init k1 = Except.ok p1) :
    d.add_task_if_doesnt_exist task_id k1 =
      Except.ok ⟨assocSet d.tasks task_id p1⟩ ∧
    DictTaskStore.get_task ⟨assocSet d.tasks task_id p1⟩ task_id = some p1 ∧
    DictTaskStore.add_task_if_doesnt_exist ⟨assocSet d.tasks task_id p1⟩ task_id k2 =
      Except.ok ⟨assocSet d.tasks task_id p1⟩ ∧
    ZKTaskStore.add_task_if_doesnt_exist st task_id k1 =
      Except.ok ⟨assocSet st.nodes ("/" ++ task_id) p1.serialize⟩ ∧
    ZKTaskStore.get_task ⟨assocSet st.nodes ("/" ++ task_id) p1.serialize⟩ task_id =
      Except.ok (some p1) ∧
    ZKTaskStore.add_task_if_doesnt_exist
        ⟨assocSet st.nodes ("/" ++ task_id) p1.serialize⟩ task_id k2 =
      Except.ok ⟨assocSet st.nodes ("/" ++ task_id) p1.serialize⟩ := by
  have hg1 : DictTaskStore.get_task ⟨assocSet d.tasks task_id p1⟩ task_id = some p1 :=
    assocGet_assocSet_self d.tasks task_id p1
  have hz1 : ZKTaskStore.get_task
      ⟨assocSet st.nodes ("/" ++ task_id) p1.serialize⟩ task_id =
      Except.ok (some p1) := ZK_get_task_after_write st task_id k1 p1 h1
  exact ⟨Dict_add_of_absent d task_id k1 p1 hd h1, hg1,
    Dict_add_of_present _ task_id k2 p1 hg1,
    ZK_add_of_absent st task_id k1 p1 hz h1, hz1,
    ZK_add_of_present _ task_id k2 p1 hz1⟩

/-- Witness for C5 on empty stores: add health=True, then health=False; the
first value is kept on both backends. -/
theorem C5_add_task_first_value_wins_witness :
    DictTaskStore.add_task_if_doesnt_exist ⟨[]⟩ "t1" [("health", Json.bool true)] =
      Except.ok ⟨[("t1", goodParams)]⟩ ∧
    DictTaskStore.get_task ⟨[("t1", goodParams)]⟩ "t1" = some goodParams ∧
    DictTaskStore.add_task_if_doesnt_exist ⟨[("t1", goodParams)]⟩ "t1"
        [("health", Json.bool false)] = Except.ok ⟨[("t1", goodParams)]⟩ ∧
    ZKTaskStore.add_task_if_doesnt_exist ⟨[]⟩ "t1" [("health", Json.bool true)] =
      Except.ok ⟨[("/t1", goodParams.serialize)]⟩ ∧
    ZKTaskStore.get_task ⟨[("/t1", goodParams.serialize)]⟩ "t1" =
      Except.ok (some goodParams) ∧
    ZKTaskStore.add_task_if_doesnt_exist ⟨[("/t1", goodParams.serialize)]⟩ "t1"
        [("health", Json.bool false)] = Except.ok ⟨[("/t1", goodParams.serialize)]⟩ :=
  C5_add_task_first_value_wins ⟨[]⟩ ⟨[]⟩ "t1" [("health", Json.bool true)]
    [("health", Json.bool false)] goodParams (by decide) (by decide) (by decide)

/-- update_task on the in-memory backend, absent case. -/
theorem Dict_update_of_absent (d : DictTaskStore) (task_id : String)
    (kwargs : PyDict) (m : MesosTaskParameters)
    (hd : d.get_task task_id = none)
    (hm : MesosTaskParameters.init kwargs = Except.ok m) :
    d.update_task task_id kwargs = Except.ok (m, ⟨assocSet d.tasks task_id m⟩) := by
  unfold DictTaskStore.update_task
  rw [hd]
  show (do
      let merged_params ← MesosTaskParameters.init kwargs
      let st ← DictTaskStore.overwrite_task d task_id merged_params
      Except.ok (merged_params, st)) =
    Except.ok (m, ⟨assocSet d.tasks task_id m⟩)
  rw [hm]
  show (do
      let st ← DictTaskStore.overwrite_task d task_id m
      Except.ok (m, st)) =
    Except.ok (m, ⟨assocSet d.tasks task_id m⟩)
  rw [Dict_overwrite_task_of_init d task_id kwargs m hm]
  rfl

/-- update_task on the in-memory backend, present case. -/
theorem Dict_update_of_present (d : DictTaskStore) (task_id : String)
    (kwargs : PyDict) (x m : MesosTaskParameters)
    (hd : d.get_task task_id = some x)
    (hm : (x.merge kwargs).1 = Except.ok m) :
    d.update_task task_id kwargs = Except.ok (m, ⟨assocSet d.tasks task_id m⟩) := by
  have hm2 : MesosTaskParameters.init (dictUpdate x.dict kwargs) = Except.ok m := hm
  unfold DictTaskStore.update_task
  rw [hd]
  show (do
      let merged_params ← (x.merge kwargs).1
      let st ← DictTaskStore.overwrite_task d task_id merged_params
      Except.ok (merged_params, st)) =
    Except.ok (m, ⟨assocSet d.tasks task_id m⟩)
  rw [hm]
  show (do
      let st ← DictTaskStore.overwrite_task d task_id m
      Except.ok (m, st)) =
    Except.ok (m, ⟨assocSet d.tasks task_id m⟩)
  rw [Dict_overwrite_task_of_init d task_id (dictUpdate x.dict kwargs) m hm2]
  rfl

/-- update_task on the ZooKeeper backend, absent case. -/
theorem ZK_update_of_absent (st : ZKState) (task_id : String) (kwargs : PyDict)
    (m : MesosTaskParameters)
    (hz : ZKTaskStore.get_task st task_id = Except.ok none)
    (hm : MesosTaskParameters.init kwargs = Except.ok m) :
    ZKTaskStore.update_task st task_id kwargs =
      Except.ok (m, ⟨assocSet st.nodes ("/" ++ task_id) m.serialize⟩) := by
  unfold ZKTaskStore.update_task
  rw [hz]
  show (do
      let merged_params ← MesosTaskParameters.init kwargs
      let st1 ← ZKTaskStore.overwrite_task st task_id merged_params
      Except.ok (merged_params, st1)) =
    Except.ok (m, ⟨assocSet st.nodes ("/" ++ task_id) m.serialize⟩)
  rw [hm]
  show (do
      let st1 ← ZKTaskStore.overwrite_task st task_id m
      Except.ok (m, st1)) =
    Except.ok (m, ⟨assocSet st.nodes ("/" ++ task_id) m.serialize⟩)
  rw [ZK_overwrite_task_eq st task_id m]
  rfl

/-- update_task on the ZooKeeper backend, present case. -/
theorem ZK_update_of_present (st : ZKState) (task_id : String) (kwargs : PyDict)
    (x m : MesosTaskParameters)
    (hz : ZKTaskStore.get_task st task_id = Except.ok (some x))
    (hm : (x.merge kwargs).1 = Except.ok m) :
    ZKTaskStore.update_task st task_id kwargs =
      Except.ok (m, ⟨assocSet st.nodes ("/" ++ task_id) m.serialize⟩) := by
  unfold ZKTaskStore.update_task
  rw [hz]
  show (do
      let merged_params ← (x.merge kwargs).1
      let st1 ← ZKTaskStore.overwrite_task st task_id merged_params
      Except.ok (merged_params, st1)) =
    Except.ok (m, ⟨assocSet st.nodes ("/" ++ task_id) m.serialize⟩)
  rw [hm]
  show (do
      let st1 ← ZKTaskStore.overwrite_task st task_id m
      Except.ok (m, st1)) =
    Except.ok (m, ⟨assocSet st.nodes ("/" ++ task_id) m.serialize⟩)
  rw [ZK_overwrite_task_eq st task_id m]
  rfl

/-- Claim C4: update_task reads the current stored value (treating absence as
an empty base), merges the supplied fields on top, writes the merged result,
and returns it; on a task_id with no prior entry the result is exactly
construct(kwargs). Shown on both backends, with the written value read back
as the returned one. -/
theorem C4_update_task_read_merge_write (d : DictTaskStore) (st : ZKState)
    (task_id : String) (kwargs : PyDict) (m : MesosTaskParameters) :
    (d.get_task task_id = none → MesosTaskParameters.init kwargs = Except.ok m →
      d.update_task task_id kwargs = Except.ok (m, ⟨assocSet d.tasks task_id m⟩) ∧
      DictTaskStore.get_task ⟨assocSet d.tasks task_id m⟩ task_id = some m) ∧
    (∀ x, d.get_task task_id = some x → (x.merge kwargs).1 = Except.ok m →
      d.update_task task_id kwargs = Except.ok (m, ⟨assocSet d.tasks task_id m⟩) ∧
      DictTaskStore.get_task ⟨assocSet d.tasks task_id m⟩ task_id = some m) ∧
    (ZKTaskStore.get_task st task_id = Except.ok none →
      MesosTaskParameters.init kwargs = Except.ok m →
      ZKTaskStore.update_task st task_id kwargs =
        Except.ok (m, ⟨assocSet st.nodes ("/" ++ task_id) m.serialize⟩) ∧
      ZKTaskStore.get_task ⟨assocSet st.nodes ("/" ++ task_id) m.serialize⟩ task_id =
        Except.ok (some m)) ∧
    (∀ x, ZKTaskStore.get_task st task_id = Except.ok (some x) →
      (x.merge kwargs).1 = Except.ok m →
      ZKTaskStore.update_task st task_id kwargs =
        Except.ok (m, ⟨assocSet st.nodes ("/" ++ task_id) m.serialize⟩) ∧
      ZKTaskStore.get_task ⟨assocSet st.nodes ("/" ++ task_id) m.serialize⟩ task_id =
        Except.ok (some m)) := by
  refine ⟨?_, ?_, ?_, ?_⟩
  · intro hd hm
    exact ⟨Dict_update_of_absent d task_id kwargs m hd hm,
      assocGet_assocSet_self d.tasks task_id m⟩
  · intro x hd hm
    exact ⟨Dict_update_of_present d task_id kwargs x m hd hm,
      assocGet_assocSet_self d.tasks task_id m⟩
  · intro hz hm
    exact ⟨ZK_update_of_absent st task_id kwargs m hz hm,
      ZK_get_task_after_write st task_id kwargs m hm⟩
  · intro x hz hm
    exact ⟨ZK_update_of_present st task_id kwargs x m hz hm,
      ZK_get_task_after_write st task_id (dictUpdate x.dict kwargs) m hm⟩

/-- construct(health=True) merged with is_draining=True. -/
def pMerged : MesosTaskParameters :=
  ⟨canonicalDict (Json.bool true) Json.null (Json.bool true) Json.null
    Json.null Json.null⟩

/-- Witness for C4: updating a store holding construct(health=True) at t1
with is_draining=True returns and stores the merged value. -/
theorem C4_update_task_read_merge_write_witness :
    DictTaskStore.update_task ⟨[("t1", goodParams)]⟩ "t1"
        [("is_draining", Json.bool true)] =
      Except.ok (pMerged, ⟨[("t1", pMerged)]⟩) ∧
    DictTaskStore.get_task ⟨[("t1", pMerged)]⟩ "t1" = some pMerged :=
  (C4_update_task_read_merge_write ⟨[("t1", goodParams)]⟩ ⟨[]⟩ "t1"
      [("is_draining", Json.bool true)] pMerged).2.1 goodParams
    (by decide) (by decide)

/-- Claim C1, shown failing at a concrete input: for
x = construct(health=False), x.merge(health=True) returns the correctly
merged new value, but the receiver after the call holds health=True as well
(merge aliases and updates the receiver's __dict__ in place), so x is NOT
unchanged by the call. -/
theorem C1_merge_mutates_receiver :
    (MesosTaskParameters.mk (canonicalDict (Json.bool false) Json.null Json.null
        Json.null Json.null Json.null)).merge [("health", Json.bool true)] =
      (Except.ok ⟨canonicalDict (Json.bool true) Json.null Json.null Json.null
          Json.null Json.null⟩,
        ⟨canonicalDict (Json.bool true) Json.null Json.null Json.null
          Json.null Json.null⟩) ∧
    (⟨canonicalDict (Json.bool true) Json.null Json.null Json.null Json.null
        Json.null⟩ : MesosTaskParameters) ≠
      ⟨canonicalDict (Json.bool false) Json.null Json.null Json.null Json.null
        Json.null⟩ := by
  decide

/-- Claim C10: merging with a keyword outside the six fields raises TypeError
from the constructor call, but only after the receiver's __dict__ has been
updated in place: afterwards the unknown key is present in the receiver's
field mapping and appears in its serialize output. -/
theorem C10_failed_merge_leaves_receiver_modified (x : MesosTaskParameters)
    (k : String) (v : Json) (hk : taskParamFields.contains k = false) :
    (x.merge [(k, v)]).1 = Except.error PyError.typeError ∧
    (x.merge [(k, v)]).2 = ⟨dictSet x.dict k v⟩ ∧
    dictGet (x.merge [(k, v)]).2.dict k = some v ∧
    (x.merge [(k, v)]).2.serialize = Payload.json (Json.obj (dictSet x.dict k v)) := by
  have hmem : (k, v) ∈ dictSet x.dict k v := mem_dictSet_self x.dict k v
  have hall : (dictSet x.dict k v).all (fun kv => taskParamFields.contains kv.1) =
      false := all_false_of_mem hmem hk
  refine ⟨?_, rfl, ?_, rfl⟩
  · show MesosTaskParameters.init (dictUpdate x.dict [(k, v)]) =
      Except.error PyError.typeError
    have hupd : dictUpdate x.dict [(k, v)] = dictSet x.dict k v := rfl
    rw [hupd]
    unfold MesosTaskParameters.init
    rw [hall]
    rfl
  · show dictGet (dictSet x.dict k v) k = some v
    exact dictGet_dictSet_self x.dict k v

/-- Witness for C10 at construct(health=True).merge(bogus=7). -/
theorem C10_failed_merge_leaves_receiver_modified_witness :
    (goodParams.merge [("bogus", Json.num 7)]).1 = Except.error PyError.typeError ∧
    (goodParams.merge [("bogus", Json.num 7)]).2 =
      ⟨dictSet goodParams.dict "bogus" (Json.num 7)⟩ ∧
    dictGet (goodParams.merge [("bogus", Json.num 7)]).2.dict "bogus" =
      some (Json.num 7) ∧
    (goodParams.merge [("bogus", Json.num 7)]).2.serialize =
      Payload.json (Json.obj (dictSet goodParams.dict "bogus" (Json.num 7))) :=
  C10_failed_merge_leaves_receiver_modified goodParams "bogus" (Json.num 7)
    (by decide)
